import Mathlib

/-!
Shallow embedding of the v7.9.8 stock-screening rules engine
(`v7_9_8_app_allinone.py`, section 1: Universe / Firm / Score / tier
classification / E-candidate flag).

Modelling conventions:
- Python floats are modelled as exact rationals (`ℚ`);
- dataclass fields that the rules read through `is not None` guards and that
  the snapshot builder can actually leave unset are `Option ℚ` (or `Option ℤ`
  for the integer rank); fields the builder always populates with a float
  (`close`, `volume`, the moving averages, `market_cap`, `rs60`) are plain `ℚ`,
  so their `is not None` guards in the source are vacuously true;
- Python's `round` (round-half-to-even on the exact value) is `pyRound`;
- the `checks` dict of `UniverseResult` is an association list in insertion
  order, and `dict[key]` access is `List.lookup`.
-/

/-- Python 3 `round` to an integer: round half to even, on exact rationals. -/
def pyRound (q : ℚ) : ℤ :=
  if q - ⌊q⌋ = 1/2 then
    (if ⌊q⌋ % 2 = 0 then ⌊q⌋ else ⌊q⌋ + 1)
  else
    round q

lemma floor_le_pyRound (q : ℚ) : ⌊q⌋ ≤ pyRound q := by
  unfold pyRound
  split
  · split <;> omega
  · rw [round_eq]
    exact Int.floor_le_floor (by linarith)

lemma pyRound_le_round (q : ℚ) : pyRound q ≤ round q := by
  unfold pyRound
  split
  · rename_i h
    have hr : round q = ⌊q⌋ + 1 := by
      rw [round_eq]
      have hq : q + 1/2 = ((⌊q⌋ + 1 : ℤ) : ℚ) := by push_cast; linarith
      rw [hq, Int.floor_intCast]
    rw [hr]
    split <;> omega
  · exact le_refl _

lemma pyRound_mono {x y : ℚ} (h : x ≤ y) : pyRound x ≤ pyRound y := by
  rcases eq_or_lt_of_le h with rfl | hlt
  · exact le_refl _
  by_cases hy : y - ⌊y⌋ = 1/2
  · have h1 : pyRound x ≤ round x := pyRound_le_round x
    have h2 : round x ≤ ⌊y⌋ := by
      rw [round_eq]
      have hx2 : x + 1/2 < ((⌊y⌋ + 1 : ℤ) : ℚ) := by push_cast; linarith
      have := Int.floor_lt.mpr hx2
      omega
    have h3 : ⌊y⌋ ≤ pyRound y := floor_le_pyRound y
    omega
  · have hry : pyRound y = round y := by unfold pyRound; rw [if_neg hy]
    have h1 : pyRound x ≤ round x := pyRound_le_round x
    have h2 : round x ≤ round y := by
      rw [round_eq, round_eq]
      exact Int.floor_le_floor (by linarith)
    omega

lemma pyRound_le_of_le {q : ℚ} {n : ℤ} (h : q ≤ (n : ℚ)) : pyRound q ≤ n := by
  have h1 := pyRound_le_round q
  have h2 : round q ≤ n := by
    rw [round_eq]
    have hx : q + 1/2 < ((n + 1 : ℤ) : ℚ) := by push_cast; linarith
    have := Int.floor_lt.mpr hx
    omega
  omega

lemma le_pyRound_of_le {q : ℚ} {n : ℤ} (h : (n : ℚ) ≤ q) : n ≤ pyRound q := by
  have h1 := floor_le_pyRound q
  have h2 : n ≤ ⌊q⌋ := Int.le_floor.mpr h
  omega

/-- §6 tier labels (`Layer` enum; ELIMINATED is the string "X" in the source). -/
inductive Layer where
  | A
  | B
  | C
  | D
  | ELIMINATED
  deriving DecidableEq, Repr

/-- `StockSnapshot` dataclass: per-security evaluation-day snapshot. -/
structure StockSnapshot where
  symbol : String
  name : String
  is_financial : Bool
  is_cyclical : Bool
  close : ℚ
  volume : ℚ
  ma20 : ℚ
  ma60 : ℚ
  ma240 : ℚ
  avg_turnover_20 : Option ℚ
  turnover_ratio_20 : Option ℚ
  market_cap : ℚ
  roe_ttm : Option ℚ
  opm_ttm : Option ℚ
  debt_ratio : Option ℚ
  revenue_yoy_m1 : Option ℚ
  revenue_yoy_m2 : Option ℚ
  revenue_yoy_m3 : Option ℚ
  eps_growth_4q : Option ℚ
  net_income_growth_3m : Option ℚ
  npl_ratio : Option ℚ := none
  coverage_ratio : Option ℚ := none
  rs60 : ℚ := 50
  industry : Option String := none
  industry_index_price : Option ℚ := none
  industry_index_ma60 : Option ℚ := none
  industry_up_ratio_5d : Option ℚ := none
  inst_net_buy_20 : Option ℚ := none
  industry_rank_by_size : Option ℤ := none
  last_quarter_growth : Option ℚ := none

/-- `UniverseResult` dataclass; `checks` keeps insertion order of the dict. -/
structure UniverseResult where
  passed : Bool
  reason : String
  checks : List (String × Bool)

/-- `FirmResult` dataclass. -/
structure FirmResult where
  f_price : Bool
  f_volume : Bool
  f_trend : Bool
  f_group : Bool
  count : Nat
  is_firm : Bool

/-- `ScoreResult` dataclass (Python ints). -/
structure ScoreResult where
  total : ℤ
  growth : ℤ
  quality : ℤ
  momentum : ℤ
  valuation : ℤ

/-- `ClassificationResult` dataclass; `extra_info` holds only the reason string. -/
structure ClassificationResult where
  symbol : String
  name : String
  layer : Layer
  is_e_candidate : Bool
  univ : UniverseResult
  firm : FirmResult
  score : ScoreResult
  extra_info : List (String × String)

def PRICE_CAP_DEFAULT : ℚ := 80

def MIN_TURNOVER_20 : ℚ := 50000000

def MIN_TURNOVER_RATIO_20 : ℚ := 3/1000

def MIN_MARKET_CAP : ℚ := 1000000000

/-- §3.1 non-financial Universe filter (`_check_universe_non_financial`). -/
def _check_universe_non_financial (s : StockSnapshot)
    (price_cap : ℚ := PRICE_CAP_DEFAULT) : UniverseResult :=
  let checks : List (String × Bool) :=
    [("price", decide (s.close ≤ price_cap)),
     ("market_cap", decide (s.market_cap ≥ MIN_MARKET_CAP)),
     ("revenue_3m_yoy",
        match s.revenue_yoy_m1, s.revenue_yoy_m2, s.revenue_yoy_m3 with
        | some a, some b, some c => decide (a ≥ 1/20 ∧ b ≥ 1/20 ∧ c ≥ 1/20)
        | _, _, _ => false),
     ("roe", match s.roe_ttm with | some r => decide (r > 1/10) | none => false),
     ("opm", match s.opm_ttm with | some o => decide (o ≥ 1/20) | none => false),
     ("debt_ratio", match s.debt_ratio with | some d => decide (d < 3/5) | none => false),
     ("turnover_20",
        match s.avg_turnover_20 with
        | some t => decide (t ≥ MIN_TURNOVER_20)
        | none => false),
     ("turnover_ratio_20",
        match s.turnover_ratio_20 with
        | some t => decide (t ≥ MIN_TURNOVER_RATIO_20)
        | none => false)]
  let passed := checks.all (fun p => p.2)
  { passed := passed
    reason := if passed then "OK" else "Non-financial universe filter failed"
    checks := checks }

/-- §3.1-F financial Universe filter (`_check_universe_financial`). -/
def _check_universe_financial (s : StockSnapshot)
    (price_cap : ℚ := PRICE_CAP_DEFAULT) : UniverseResult :=
  let checks : List (String × Bool) :=
    [("price", decide (s.close ≤ price_cap)),
     ("market_cap", decide (s.market_cap ≥ MIN_MARKET_CAP)),
     ("roe", match s.roe_ttm with | some r => decide (r > 1/10) | none => false),
     ("npl", match s.npl_ratio with | some n => decide (n < 1/100) | none => false),
     ("coverage", match s.coverage_ratio with | some c => decide (c > 1) | none => false),
     ("growth",
        (match s.eps_growth_4q with | some e => decide (e ≥ 1/20) | none => false) ||
        (match s.net_income_growth_3m with | some g => decide (g ≥ 1/20) | none => false)),
     ("turnover_20",
        match s.avg_turnover_20 with
        | some t => decide (t ≥ MIN_TURNOVER_20)
        | none => false),
     ("turnover_ratio_20",
        match s.turnover_ratio_20 with
        | some t => decide (t ≥ MIN_TURNOVER_RATIO_20)
        | none => false)]
  let passed := checks.all (fun p => p.2)
  { passed := passed
    reason := if passed then "OK" else "Financial universe filter failed"
    checks := checks }

/-- `check_universe`: dispatch on `is_financial`. -/
def check_universe (s : StockSnapshot)
    (price_cap : ℚ := PRICE_CAP_DEFAULT) : UniverseResult :=
  if s.is_financial then
    _check_universe_financial s price_cap
  else
    _check_universe_non_financial s price_cap

/-- §3.2 `check_firm`: the four momentum conditions and their aggregate. -/
def check_firm (s : StockSnapshot) : FirmResult :=
  let f_price := decide (s.close > s.ma60 ∧ s.close > s.ma240)
  let f_volume :=
    match s.avg_turnover_20 with
    | some t => decide (s.close * s.volume ≥ 3/2 * t)
    | none => false
  let f_trend := decide (s.close ≥ s.ma240 * (102/100))
  let f_group :=
    if s.industry_up_ratio_5d ≠ none ∨
        (s.industry_index_price ≠ none ∧ s.industry_index_ma60 ≠ none) then
      let cond_a :=
        match s.industry_up_ratio_5d with
        | some r => decide (r ≥ 3/5)
        | none => false
      let cond_b :=
        match s.industry_index_price, s.industry_index_ma60 with
        | some p, some m => decide (p > m)
        | _, _ => false
      cond_a || cond_b
    else
      true
  let cond_list := [f_price, f_volume, f_trend, f_group]
  let count := cond_list.count true
  let is_firm := decide (count = 4)
  { f_price := f_price, f_volume := f_volume, f_trend := f_trend,
    f_group := f_group, count := count, is_firm := is_firm }

/-- Mean of the present monthly revenue-YoY values (0 when none is present);
the accumulation loop shared by `calculate_score` and `classify_stock`. -/
def revAvg3 (a b c : Option ℚ) : ℚ :=
  let vals := [a, b, c].filterMap id
  if 0 < vals.length then vals.sum / (vals.length : ℚ) else 0

/-- Growth sub-score block of `calculate_score` (§8, ceiling 30). -/
def growthScore (s : StockSnapshot) : ℤ :=
  if !s.is_financial then
    let rev_avg := revAvg3 s.revenue_yoy_m1 s.revenue_yoy_m2 s.revenue_yoy_m3
    let g1 := max 0 (min (3/10) rev_avg) / (3/10) * 15
    let eps_g := s.eps_growth_4q.getD 0
    let g2 := max 0 (min (3/10) eps_g) / (3/10) * 15
    pyRound (g1 + g2)
  else
    let eps_g := s.eps_growth_4q.getD 0
    let ni_g := s.net_income_growth_3m.getD 0
    let g1 := max 0 (min (3/10) eps_g) / (3/10) * 15
    let g2 := max 0 (min (3/10) ni_g) / (3/10) * 15
    pyRound (g1 + g2)

/-- Quality sub-score block of `calculate_score` (§8, ceiling 30). -/
def qualityScore (s : StockSnapshot) : ℤ :=
  if !s.is_financial then
    let roe := s.roe_ttm.getD 0
    let opm := s.opm_ttm.getD 0
    let q1 := max 0 (min (3/10) roe) / (3/10) * 15
    let q2 := max 0 (min (3/10) opm) / (3/10) * 15
    pyRound (q1 + q2)
  else
    let roe := s.roe_ttm.getD 0
    let q1 := max 0 (min (3/10) roe) / (3/10) * 15
    let npl := s.npl_ratio.getD (1/50)
    let coverage := s.coverage_ratio.getD (1/2)
    let raw_q2 := max 0 (3/2 - npl * 10 + (coverage - 1))
    let q2 := max 0 (min 2 raw_q2) / 2 * 15
    pyRound (q1 + q2)

/-- Momentum sub-score block of `calculate_score` (§8, ceiling 25). -/
def momentumScore (s : StockSnapshot) (firm : FirmResult) : ℤ :=
  (if s.close > s.ma60 then 5 else 0) +
  (if s.close > s.ma240 then 5 else 0) +
  (if s.ma20 > s.ma60 then 5 else 0) +
  (match s.avg_turnover_20 with
   | some t => if s.close * s.volume > t then 5 else 0
   | none => 0) +
  (if firm.f_group then 5 else 0)

/-- §8 `calculate_score`: the composite 0–100 score. -/
def calculate_score (s : StockSnapshot) (firm : FirmResult) : ScoreResult :=
  let growth := growthScore s
  let quality := qualityScore s
  let momentum := momentumScore s firm
  let valuation : ℤ := 10
  let total := max 0 (min 100 (growth + quality + momentum + valuation))
  { total := total, growth := growth, quality := quality,
    momentum := momentum, valuation := valuation }

/-- §4 `check_e_candidate`: E-layer candidate flag. -/
def check_e_candidate (s : StockSnapshot) : Bool :=
  if s.rs60 < 75 then false
  else match s.inst_net_buy_20 with
    | none => false
    | some v =>
      if v < 0 then false
      else match s.industry_rank_by_size with
        | none => false
        | some r =>
          if r > 3 then false
          else match s.last_quarter_growth with
            | none => false
            | some g => if g < 1/10 then false else true

/-- Tier decision tree of `classify_stock` (runs only when Universe passed);
returns the layer together with the reason string put into `extra_info`. -/
def classify_layer (s : StockSnapshot) (firm : FirmResult) (score : ScoreResult) :
    Layer × String :=
  if firm.is_firm = true ∧ score.total ≥ 70 then
    (Layer.A, "Firm (4/4) and score>=70")
  else if firm.count = 3 ∨ (60 ≤ score.total ∧ score.total ≤ 69) then
    (Layer.B, "Firm missing 1 or score 60-69")
  else
    let rev_avg := revAvg3 s.revenue_yoy_m1 s.revenue_yoy_m2 s.revenue_yoy_m3
    let growth_relaxed := decide (rev_avg ≥ 0) ||
      (match s.revenue_yoy_m1 with | some x => decide (x ≥ 1/20) | none => false)
    let roe_ok := match s.roe_ttm with | some r => decide (r > 1/10) | none => false
    let opm_ok := match s.opm_ttm with | some o => decide (o ≥ 3/100) | none => false
    if firm.count ≥ 3 ∧ firm.f_price = true ∧ roe_ok = true ∧ opm_ok = true ∧
        growth_relaxed = true then
      (Layer.C, "Three-of-four Firm + relaxed growth")
    else
      let cond_bottom : ℤ :=
        (match s.roe_ttm with | some r => if r ≥ 8/100 then 1 else 0 | none => 0) +
        (match s.opm_ttm with | some o => if o ≥ 2/100 then 1 else 0 | none => 0) +
        (if rev_avg ≥ -(3/100) then 1 else 0)
      if firm.count ≥ 2 ∧ cond_bottom ≥ 2 then
        (Layer.D, "Momentum>=2 and bottom-line>=2")
      else
        (Layer.ELIMINATED, "Does not match any layer A/B/C/D")

/-- §6 `classify_stock`: assemble the final classification record. -/
def classify_stock (s : StockSnapshot) (univ : UniverseResult)
    (firm : FirmResult) (score : ScoreResult) : ClassificationResult :=
  if univ.passed = false then
    { symbol := s.symbol, name := s.name, layer := Layer.ELIMINATED,
      is_e_candidate := false, univ := univ, firm := firm,
      score := score, extra_info := [("reason", "Universe not passed")] }
  else
    let lr := classify_layer s firm score
    { symbol := s.symbol, name := s.name, layer := lr.1,
      is_e_candidate := check_e_candidate s, univ := univ,
      firm := firm, score := score, extra_info := [("reason", lr.2)] }

/-- Pointwise order on optional revenue figures: the value is replaced by a
present greater-or-equal value, or left unchanged. -/
def OptLe (o n : Option ℚ) : Prop :=
  match o, n with
  | some a, some b => a ≤ b
  | none, none => True
  | _, _ => False

instance : (o n : Option ℚ) → Decidable (OptLe o n)
  | none, none => isTrue trivial
  | none, some _ => isFalse (fun h => h)
  | some _, none => isFalse (fun h => h)
  | some a, some b => inferInstanceAs (Decidable (a ≤ b))

lemma revAvg3_mono {a b c a2 b2 c2 : Option ℚ}
    (h1 : OptLe a a2) (h2 : OptLe b b2) (h3 : OptLe c c2) :
    revAvg3 a b c ≤ revAvg3 a2 b2 c2 := by
  rcases a with _ | x <;> rcases a2 with _ | x2 <;>
    rcases b with _ | y <;> rcases b2 with _ | y2 <;>
    rcases c with _ | z <;> rcases c2 with _ | z2 <;>
    simp only [OptLe] at h1 h2 h3 <;>
    first
      | exact absurd h1 (fun h => h)
      | exact absurd h2 (fun h => h)
      | exact absurd h3 (fun h => h)
      | (simp [revAvg3]; try linarith)

lemma scaled30_bounds (x : ℚ) :
    0 ≤ max 0 (min (3/10) x) / (3/10) * 15 ∧
    max 0 (min (3/10) x) / (3/10) * 15 ≤ 15 := by
  have h0 : (0:ℚ) ≤ max 0 (min (3/10) x) := le_max_left _ _
  have h1 : max 0 (min (3/10) x) ≤ 3/10 := max_le (by norm_num) (min_le_left _ _)
  have he : max 0 (min (3/10) x) / (3/10) * 15 = max 0 (min (3/10) x) * 50 := by
    ring
  rw [he]
  constructor <;> linarith

lemma scaled2_bounds (x : ℚ) :
    0 ≤ max 0 (min 2 x) / 2 * 15 ∧ max 0 (min 2 x) / 2 * 15 ≤ 15 := by
  have h0 : (0:ℚ) ≤ max 0 (min 2 x) := le_max_left _ _
  have h1 : max 0 (min 2 x) ≤ 2 := max_le (by norm_num) (min_le_left _ _)
  have he : max 0 (min 2 x) / 2 * 15 = max 0 (min 2 x) * (15/2) := by ring
  rw [he]
  constructor <;> linarith

lemma growthScore_bounds (s : StockSnapshot) :
    0 ≤ growthScore s ∧ growthScore s ≤ 30 := by
  unfold growthScore
  split
  · have ha := scaled30_bounds (revAvg3 s.revenue_yoy_m1 s.revenue_yoy_m2 s.revenue_yoy_m3)
    have hb := scaled30_bounds (s.eps_growth_4q.getD 0)
    constructor
    · exact le_pyRound_of_le (by push_cast; linarith)
    · exact pyRound_le_of_le (by push_cast; linarith)
  · have ha := scaled30_bounds (s.eps_growth_4q.getD 0)
    have hb := scaled30_bounds (s.net_income_growth_3m.getD 0)
    constructor
    · exact le_pyRound_of_le (by push_cast; linarith)
    · exact pyRound_le_of_le (by push_cast; linarith)

lemma qualityScore_bounds (s : StockSnapshot) :
    0 ≤ qualityScore s ∧ qualityScore s ≤ 30 := by
  unfold qualityScore
  split
  · have ha := scaled30_bounds (s.roe_ttm.getD 0)
    have hb := scaled30_bounds (s.opm_ttm.getD 0)
    constructor
    · exact le_pyRound_of_le (by push_cast; linarith)
    · exact pyRound_le_of_le (by push_cast; linarith)
  · have ha := scaled30_bounds (s.roe_ttm.getD 0)
    have hb := scaled2_bounds
      (max 0 (3/2 - s.npl_ratio.getD (1/50) * 10 + (s.coverage_ratio.getD (1/2) - 1)))
    constructor
    · exact le_pyRound_of_le (by push_cast; linarith)
    · exact pyRound_le_of_le (by push_cast; linarith)

lemma momentumScore_bounds (s : StockSnapshot) (firm : FirmResult) :
    0 ≤ momentumScore s firm ∧ momentumScore s firm ≤ 25 := by
  unfold momentumScore
  cases hA : s.avg_turnover_20 <;> simp only [hA] <;> split_ifs <;> omega

lemma calculate_score_spec (s : StockSnapshot) (f : FirmResult) :
    (calculate_score s f).total =
      (calculate_score s f).growth + (calculate_score s f).quality +
      (calculate_score s f).momentum + (calculate_score s f).valuation ∧
    (calculate_score s f).valuation = 10 ∧
    10 ≤ (calculate_score s f).total ∧ (calculate_score s f).total ≤ 95 := by
  have hg := growthScore_bounds s
  have hq := qualityScore_bounds s
  have hm := momentumScore_bounds s f
  simp only [calculate_score]
  refine ⟨?_, by trivial, ?_, ?_⟩ <;> omega

/-- Concrete non-financial snapshot used to instantiate theorems. -/
def snapNF : StockSnapshot :=
  { symbol := "2330.TW", name := "DemoNF", is_financial := false,
    is_cyclical := false, close := 50, volume := 3100000, ma20 := 48,
    ma60 := 45, ma240 := 40, avg_turnover_20 := some 100000000,
    turnover_ratio_20 := some (1/100), market_cap := 2000000000,
    roe_ttm := some (15/100), opm_ttm := some (8/100),
    debt_ratio := some (3/10), revenue_yoy_m1 := some (6/100),
    revenue_yoy_m2 := some (7/100), revenue_yoy_m3 := some (8/100),
    eps_growth_4q := some (1/10), net_income_growth_3m := some (5/100) }

/-- Concrete financial snapshot with an absent NPL ratio. -/
def snapFin : StockSnapshot :=
  { symbol := "2881.TW", name := "DemoFin", is_financial := true,
    is_cyclical := false, close := 60, volume := 2000000, ma20 := 58,
    ma60 := 55, ma240 := 50, avg_turnover_20 := some 120000000,
    turnover_ratio_20 := some (1/100), market_cap := 3000000000,
    roe_ttm := some (12/100), opm_ttm := some (30/100),
    debt_ratio := some (1/2), revenue_yoy_m1 := some (4/100),
    revenue_yoy_m2 := some (4/100), revenue_yoy_m3 := some (4/100),
    eps_growth_4q := some (6/100), net_income_growth_3m := some (6/100),
    npl_ratio := none, coverage_ratio := some (13/10) }

/-- A failed UniverseResult used to instantiate the universe-fail branch. -/
def uFail : UniverseResult :=
  { passed := false, reason := "Non-financial universe filter failed",
    checks := [("price", false)] }

/-- A passed UniverseResult used to instantiate tier-branch theorems. -/
def uPass : UniverseResult := { passed := true, reason := "OK", checks := [] }

/-- A FirmResult with exactly three conditions true. -/
def firm3 : FirmResult :=
  { f_price := true, f_volume := false, f_trend := true, f_group := true,
    count := 3, is_firm := false }

/-- A ScoreResult with total 55. -/
def score55 : ScoreResult :=
  { total := 55, growth := 10, quality := 10, momentum := 25, valuation := 10 }

/-- C1: if the universe result failed, classify_stock returns the Eliminated
layer with the E-candidate flag false, regardless of firm and score values. -/
theorem classify_universe_fail_eliminated (s : StockSnapshot)
    (u : UniverseResult) (f : FirmResult) (sc : ScoreResult)
    (h : u.passed = false) :
    (classify_stock s u f sc).layer = Layer.ELIMINATED ∧
    (classify_stock s u f sc).is_e_candidate = false := by
  simp [classify_stock, h]

theorem classify_universe_fail_eliminated_witness :
    (classify_stock snapNF uFail firm3 score55).layer = Layer.ELIMINATED ∧
    (classify_stock snapNF uFail firm3 score55).is_e_candidate = false :=
  classify_universe_fail_eliminated snapNF uFail firm3 score55 rfl

/-- C2: check_firm's aggregate is consistent: is_firm holds exactly when
count is 4, count is at most 4, and count equals the number of true values
among the four sub-conditions. -/
theorem check_firm_count_consistent (s : StockSnapshot) :
    ((check_firm s).is_firm = true ↔ (check_firm s).count = 4) ∧
    (check_firm s).count ≤ 4 ∧
    (check_firm s).count =
      [(check_firm s).f_price, (check_firm s).f_volume,
       (check_firm s).f_trend, (check_firm s).f_group].count true := by
  refine ⟨?_, ?_, rfl⟩
  · show decide ((check_firm s).count = 4) = true ↔ (check_firm s).count = 4
    exact decide_eq_true_iff
  · exact List.count_le_length true
      [(check_firm s).f_price, (check_firm s).f_volume,
       (check_firm s).f_trend, (check_firm s).f_group]

/-- C3: the total score always lies in the inclusive range 0 to 100. -/
theorem score_total_in_0_100 (s : StockSnapshot) (f : FirmResult) :
    0 ≤ (calculate_score s f).total ∧ (calculate_score s f).total ≤ 100 := by
  obtain ⟨-, -, h3, h4⟩ := calculate_score_spec s f
  exact ⟨by omega, by omega⟩

/-- C4: check_e_candidate is true exactly when rs60 is at least 75,
inst_net_buy_20 is present and nonnegative, industry_rank_by_size is present
and at most 3, and last_quarter_growth is present and at least 0.10; in
particular it is false whenever any of the optional fields is absent. -/
theorem e_candidate_iff (s : StockSnapshot) :
    check_e_candidate s = true ↔
      (75 ≤ s.rs60 ∧
       (∃ v, s.inst_net_buy_20 = some v ∧ 0 ≤ v) ∧
       (∃ r, s.industry_rank_by_size = some r ∧ r ≤ 3) ∧
       (∃ g, s.last_quarter_growth = some g ∧ 1/10 ≤ g)) := by
  unfold check_e_candidate
  cases hb : s.inst_net_buy_20 <;> cases hr : s.industry_rank_by_size <;>
    cases hg : s.last_quarter_growth <;>
    simp [hb, hr, hg]

theorem e_candidate_iff_witness :
    check_e_candidate snapNF = true ↔
      (75 ≤ snapNF.rs60 ∧
       (∃ v, snapNF.inst_net_buy_20 = some v ∧ 0 ≤ v) ∧
       (∃ r, snapNF.industry_rank_by_size = some r ∧ r ≤ 3) ∧
       (∃ g, snapNF.last_quarter_growth = some g ∧ 1/10 ≤ g)) :=
  e_candidate_iff snapNF

/-- C5: on a financial snapshot with an absent NPL ratio, the universe
result records the npl check as false and the filter does not pass. -/
theorem universe_financial_npl_absent (s : StockSnapshot) (price_cap : ℚ)
    (hfin : s.is_financial = true) (hnpl : s.npl_ratio = none) :
    (check_universe s price_cap).checks.lookup "npl" = some false ∧
    (check_universe s price_cap).passed = false := by
  simp [check_universe, hfin, _check_universe_financial, hnpl, List.lookup]

theorem universe_financial_npl_absent_witness :
    (check_universe snapFin 80).checks.lookup "npl" = some false ∧
    (check_universe snapFin 80).passed = false :=
  universe_financial_npl_absent snapFin 80 rfl rfl

/-- C6: when the universe passed and the A-tier branch does not fire, a firm
count of exactly 3 or a total score in the 60 to 69 band yields tier B. -/
theorem classify_tier_B (s : StockSnapshot) (u : UniverseResult)
    (f : FirmResult) (sc : ScoreResult) (hu : u.passed = true)
    (hA : ¬(f.is_firm = true ∧ sc.total ≥ 70))
    (hB : f.count = 3 ∨ (60 ≤ sc.total ∧ sc.total ≤ 69)) :
    (classify_stock s u f sc).layer = Layer.B := by
  simp only [classify_stock, hu]
  rw [if_neg (by simp)]
  show (classify_layer s f sc).1 = Layer.B
  unfold classify_layer
  rw [if_neg hA, if_pos hB]

theorem classify_tier_B_witness :
    (classify_stock snapNF uPass firm3 score55).layer = Layer.B :=
  classify_tier_B snapNF uPass firm3 score55 rfl (by decide) (by decide)

/-- C7: the group-synchrony condition holds exactly when the 5-day advance
ratio is present and at least 0.6, or both industry index figures are present
with the price above the 60-day average, or neither peer-industry signal is
available (the permissive default). -/
theorem firm_group_condition (s : StockSnapshot) :
    (check_firm s).f_group = true ↔
      ((∃ r, s.industry_up_ratio_5d = some r ∧ 3/5 ≤ r) ∨
       (∃ p m, s.industry_index_price = some p ∧
          s.industry_index_ma60 = some m ∧ m < p) ∨
       (s.industry_up_ratio_5d = none ∧
        (s.industry_index_price = none ∨ s.industry_index_ma60 = none))) := by
  cases hu : s.industry_up_ratio_5d <;> cases hp : s.industry_index_price <;>
    cases hm : s.industry_index_ma60 <;>
    simp [check_firm, hu, hp, hm]

/-- C8: for a non-financial snapshot, replacing the three monthly revenue
YoY fields by pointwise greater-or-equal present values (other fields fixed)
never decreases the growth sub-score of calculate_score. -/
theorem growth_subscore_monotone (s : StockSnapshot) (f : FirmResult)
    (m1 m2 m3 : Option ℚ) (hfin : s.is_financial = false)
    (h1 : OptLe s.revenue_yoy_m1 m1) (h2 : OptLe s.revenue_yoy_m2 m2)
    (h3 : OptLe s.revenue_yoy_m3 m3) :
    (calculate_score s f).growth ≤
      (calculate_score
        { s with revenue_yoy_m1 := m1, revenue_yoy_m2 := m2,
                 revenue_yoy_m3 := m3 } f).growth := by
  have hr := revAvg3_mono h1 h2 h3
  show growthScore s ≤
    growthScore { s with revenue_yoy_m1 := m1, revenue_yoy_m2 := m2,
                         revenue_yoy_m3 := m3 }
  unfold growthScore
  simp only [hfin, Bool.not_false, if_true]
  apply pyRound_mono
  have hclamp : max 0 (min (3/10) (revAvg3 s.revenue_yoy_m1 s.revenue_yoy_m2 s.revenue_yoy_m3)) ≤
      max 0 (min (3/10) (revAvg3 m1 m2 m3)) :=
    max_le_max (le_refl 0) (min_le_min (le_refl (3/10)) hr)
  gcongr

theorem growth_subscore_monotone_witness :
    (calculate_score snapNF firm3).growth ≤
      (calculate_score
        { snapNF with revenue_yoy_m1 := some (9/100),
                      revenue_yoy_m2 := some (7/100),
                      revenue_yoy_m3 := some (20/100) } firm3).growth :=
  growth_subscore_monotone snapNF firm3 (some (9/100)) (some (7/100))
    (some (20/100)) rfl (by norm_num [OptLe, snapNF]) (by norm_num [OptLe, snapNF])
    (by norm_num [OptLe, snapNF])

/-- C9: the pipeline functions are deterministic: applied twice to identical
inputs, classify_stock, check_universe, check_firm and calculate_score
return identical results. -/
theorem pipeline_deterministic (s1 s2 : StockSnapshot)
    (u1 u2 : UniverseResult) (f1 f2 : FirmResult) (c1 c2 : ScoreResult)
    (p1 p2 : ℚ) (hs : s1 = s2) (hu : u1 = u2) (hf : f1 = f2) (hc : c1 = c2)
    (hp : p1 = p2) :
    classify_stock s1 u1 f1 c1 = classify_stock s2 u2 f2 c2 ∧
    check_universe s1 p1 = check_universe s2 p2 ∧
    check_firm s1 = check_firm s2 ∧
    calculate_score s1 f1 = calculate_score s2 f2 := by
  subst hs; subst hu; subst hf; subst hc; subst hp
  exact ⟨rfl, rfl, rfl, rfl⟩

theorem pipeline_deterministic_witness :
    classify_stock snapNF uPass firm3 score55 =
      classify_stock snapNF uPass firm3 score55 ∧
    check_universe snapNF 80 = check_universe snapNF 80 ∧
    check_firm snapNF = check_firm snapNF ∧
    calculate_score snapNF firm3 = calculate_score snapNF firm3 :=
  pipeline_deterministic snapNF snapNF uPass uPass firm3 firm3 score55
    score55 80 80 rfl rfl rfl rfl rfl

/-- C10: the total equals the sum of the four sub-scores, the valuation
sub-score is the constant 10, and hence the total always lies in the range
10 to 95, so the clamp to the 0 to 100 range is never binding. -/
theorem score_total_sum_and_tight_range (s : StockSnapshot) (f : FirmResult) :
    (calculate_score s f).total =
      (calculate_score s f).growth + (calculate_score s f).quality +
      (calculate_score s f).momentum + (calculate_score s f).valuation ∧
    (calculate_score s f).valuation = 10 ∧
    10 ≤ (calculate_score s f).total ∧ (calculate_score s f).total ≤ 95 :=
  calculate_score_spec s f
